import Mathlib

/-!
Shallow embedding of the list-loading, filtering, deletion, validation and
rendering logic of the escape-room front-end.

Modelling conventions:
* React `useState` state is gathered into explicit state records; a `setX`
  call is modelled as an immediate functional update of the record, and each
  event handler is a function from the pre-state (plus its inputs and, where
  the handler awaits the network, the response) to the post-state.
* A network fetch is split into a synchronous call step (the guard plus the
  request issuance, returning the request as an `Option` — `none` means no
  request was issued) and a response-handling step fed with an abstract
  `FetchResult`.
* JS numbers are modelled as `Int` (identifiers, counts, timestamps) or `ℚ`
  (the rating average); JS `undefined`/`null` as `Option`.
* The JSON `data` field of a list response is either a bare array or a page
  object; an absent or otherwise malformed `data` is modelled as `none`.
-/

namespace DiaryBrowse

/-- Filter values of the diary browsing page (src/unnamed/part_000):
`success` is the tri-state success filter, `dateRange` the optional
`{start, end}` pair. -/
structure FilterValues where
  success : Option Bool
  dateRange : Option (String × String)
deriving Repr, DecidableEq

/-- The backend diary record (`DiaryApiResponse`); `participants` and
`content` may be absent at runtime (the converter guards them with `|| `). -/
structure DiaryApiResponse where
  id : Int
  title : String
  playDate : String
  isSuccess : Bool
  themeName : String
  storeName : String
  participants : Option (List String)
  content : Option String
deriving Repr, DecidableEq

/-- The front-end diary record (`Diary` of src/unnamed/part_000). -/
structure Diary where
  id : Int
  title : String
  date : String
  success : Bool
  theme : String
  location : String
  participants : List String
  content : String
deriving Repr, DecidableEq

/-- `convertApiToDiary`: field-by-field translation, defaulting absent
`participants` to `[]` and absent `content` to `""`. -/
def convertApiToDiary (a : DiaryApiResponse) : Diary :=
  { id := a.id
    title := a.title
    date := a.playDate
    success := a.isSuccess
    theme := a.themeName
    location := a.storeName
    participants := a.participants.getD []
    content := a.content.getD "" }

/-- The component state of the diary browsing page: search keyword, active
filters, page cursor, loading flag, `hasMore` flag and accumulated diaries. -/
structure DiaryPageState where
  searchKeyword : String
  activeFilters : FilterValues
  page : Nat
  loading : Bool
  hasMore : Bool
  diaries : List Diary
deriving Repr, DecidableEq

/-- The request body built by `loadMoreDiaries` (`requestData`): a falsy
keyword or date bound becomes `undefined` (`none` here). -/
structure DiaryListRequest where
  page : Nat
  size : Nat
  keyword : Option String
  isSuccess : Option Bool
  startDate : Option String
  endDate : Option String
deriving Repr, DecidableEq

/-- Builds `requestData` from the current state, as in lines 109-116 of the
source: `keyword: searchKeyword || undefined`, the tri-state success filter,
and `dateRange?.start || undefined` / `dateRange?.end || undefined`. -/
def mkRequestData (s : DiaryPageState) : DiaryListRequest :=
  { page := s.page
    size := 12
    keyword := if s.searchKeyword = "" then none else some s.searchKeyword
    isSuccess := s.activeFilters.success
    startDate := s.activeFilters.dateRange.bind
      (fun r => if r.1 = "" then none else some r.1)
    endDate := s.activeFilters.dateRange.bind
      (fun r => if r.2 = "" then none else some r.2) }

/-- Shape of the `data` field of a list response: a bare JSON array of items
or a Spring-style page object with a `content` array and a `last` flag. -/
inductive ListData (α : Type) where
  | bare (items : List α)
  | paged (content : List α) (last : Bool)
deriving Repr, DecidableEq

/-- Outcome of an awaited list fetch: `failure` is a transport or server
error (the axios promise rejects); `success d` is a 2xx whose envelope holds
`d` in its `data` field (`none`: `data` absent or malformed). -/
inductive FetchResult (α : Type) where
  | failure
  | success (data : Option (ListData α))
deriving Repr, DecidableEq

/-- Reading `.content || []` off the `data` value: a page object yields its
`content`; a bare array has no `content` property, so the guard yields `[]`. -/
def contentField {α : Type} : ListData α → List α
  | .bare _ => []
  | .paged c _ => c

/-- Reading `.last` off the `data` value: absent on a bare array, hence falsy. -/
def lastField {α : Type} : ListData α → Bool
  | .bare _ => false
  | .paged _ l => l

/-- The synchronous entry of `loadMoreDiaries` (lines 103-122): return with
no request if `loading || !hasMore`, otherwise set `loading` and issue the
POST to `/api/v1/diaries/list` carrying `requestData`. -/
def callLoadMoreDiaries (s : DiaryPageState) :
    DiaryPageState × Option DiaryListRequest :=
  if s.loading || !s.hasMore then (s, none)
  else ({ s with loading := true }, some (mkRequestData s))

/-- The response continuation of `loadMoreDiaries` (lines 124-143), run with
`loading = true`: on error or absent `data`, `setHasMore(false)`; on a
response whose extracted item list is empty, `setHasMore(false)`; otherwise
append the converted items, increment `page`, and set `hasMore` to `!last`.
The `finally` block clears `loading`. -/
def handleDiariesResponse (s : DiaryPageState)
    (r : FetchResult DiaryApiResponse) : DiaryPageState :=
  match r with
  | .failure => { s with hasMore := false, loading := false }
  | .success none => { s with hasMore := false, loading := false }
  | .success (some d) =>
      let apiDiaries := contentField d
      if apiDiaries.isEmpty then { s with hasMore := false, loading := false }
      else
        { s with
            diaries := s.diaries ++ apiDiaries.map convertApiToDiary
            page := s.page + 1
            hasMore := !(lastField d)
            loading := false }

/-- One complete `loadMoreDiaries` cycle: the guarded call step followed, when
a request was issued, by handling the response `r` to that request. -/
def loadMoreDiaries (s : DiaryPageState) (r : FetchResult DiaryApiResponse) :
    DiaryPageState × Option DiaryListRequest :=
  match callLoadMoreDiaries s with
  | (s1, none) => (s1, none)
  | (s1, some req) => (handleDiariesResponse s1 r, some req)

/-- Runs a sequence of complete fetch cycles, counting issued requests. -/
def runLoads (s : DiaryPageState)
    (rs : List (FetchResult DiaryApiResponse)) : DiaryPageState × Nat :=
  rs.foldl
    (fun acc r =>
      let step := loadMoreDiaries acc.1 r
      (step.1, acc.2 + (if step.2.isSome then 1 else 0)))
    (s, 0)

/-- `handleSearch` (lines 158-164): store the keyword, clear the accumulated
diaries, reset the page cursor and the `hasMore` flag. (The deferred
`loadMoreDiaries` then runs as a separate step on the resulting state.) -/
def handleSearch (s : DiaryPageState) (keyword : String) : DiaryPageState :=
  { s with searchKeyword := keyword, diaries := [], page := 0, hasMore := true }

/-- `handleFilterApply` (lines 166-172). -/
def handleFilterApply (s : DiaryPageState) (filters : FilterValues) :
    DiaryPageState :=
  { s with activeFilters := filters, diaries := [], page := 0, hasMore := true }

/-- `resetAllFilters` (lines 175-185). -/
def resetAllFilters (s : DiaryPageState) : DiaryPageState :=
  { s with
      searchKeyword := ""
      activeFilters := { success := none, dateRange := none }
      diaries := []
      page := 0
      hasMore := true }

/-- The three removable filters of `removeFilter`. -/
inductive FilterType where
  | keyword
  | success
  | date
deriving Repr, DecidableEq

/-- `removeFilter` (lines 188-204): clear the one named filter field, then
clear the accumulated diaries and reset the cursor and `hasMore`. -/
def removeFilter (s : DiaryPageState) (t : FilterType) : DiaryPageState :=
  let s1 :=
    match t with
    | .keyword => { s with searchKeyword := "" }
    | .success =>
        { s with activeFilters := { s.activeFilters with success := none } }
    | .date =>
        { s with activeFilters := { s.activeFilters with dateRange := none } }
  { s1 with diaries := [], page := 0, hasMore := true }

/-- The initial component state of the diary browsing page. -/
def initialState : DiaryPageState :=
  { searchKeyword := ""
    activeFilters := { success := none, dateRange := none }
    page := 0
    loading := false
    hasMore := true
    diaries := [] }

end DiaryBrowse

namespace MyDiaryPage

/-- The diary record of the personal diary page (src/src/app/my/diary/page.tsx);
`ratingAvg` is a JS number, modelled as a rational. -/
structure Diary where
  id : Int
  themeId : Int
  themeName : String
  storeName : String
  escapeDate : String
  escapeResult : Bool
  ratingAvg : ℚ
deriving Repr, DecidableEq

/-- The item extraction of `fetchDiaries` (lines 47-56): if `data` is an
array, take it; else if it is an object with a `content` array, take that;
else leave the list empty. -/
def fetchDiariesExtract (data : Option (DiaryBrowse.ListData Diary)) :
    List Diary :=
  match data with
  | some (.bare items) => items
  | some (.paged c _) => c
  | none => []

/-- Outcome of an awaited DELETE request. -/
inductive DeleteResult where
  | success
  | failure
deriving Repr, DecidableEq

/-- `handleDeleteDiary` (lines 70-85) restricted to its effect on the diary
list: nothing happens when the confirm dialog is declined; on a successful
DELETE the list is filtered by `diary.id !== id`; on failure the list is
left unchanged (only an alert is shown). -/
def handleDeleteDiary (diaries : List Diary) (i : Int) (confirmed : Bool)
    (r : DeleteResult) : List Diary :=
  if !confirmed then diaries
  else
    match r with
    | .success => diaries.filter (fun d => d.id != i)
    | .failure => diaries

/-- JS `Math.round`: round half toward positive infinity. -/
def jsRound (q : ℚ) : ℤ := ⌊q + 1 / 2⌋

/-- `renderStars` (lines 88-99) reduced to the fill pattern it renders:
five glyphs, the one at `index` filled iff `index < Math.round(rating)`. -/
def renderStars (rating : ℚ) : List Bool :=
  (List.range 5).map (fun (index : ℕ) => decide ((index : ℤ) < jsRound rating))

end MyDiaryPage

namespace PartyCreate

/-- JS `parseInt(s, 10)`: skip leading whitespace, read an optional sign and
then the longest leading run of decimal digits; no digits means `NaN`,
modelled as `none`. -/
def parseIntJS (s : String) : Option Int :=
  let cs := s.data.dropWhile (fun c => c.isWhitespace)
  let signed : Int × List Char :=
    match cs with
    | '-' :: r => (-1, r)
    | '+' :: r => (1, r)
    | r => (1, r)
  let ds := signed.2.takeWhile (fun c => c.isDigit)
  if ds.isEmpty then none
  else some (signed.1 *
    ((ds.foldl (fun acc c => acc * 10 + (c.toNat - 48)) 0 : Nat) : Int))

/-- JS `>` where either operand may be `NaN` (`none`): any comparison against
`NaN` is false. -/
def jsGtOpt : Option Int → Option Int → Bool
  | some a, some b => decide (b < a)
  | _, _ => false

/-- The party-creation form state (src/src/app/parties/create/page.tsx);
the two participant counts are raw input strings, parsed on submit. -/
structure PartyFormData where
  title : String
  themeName : String
  themeId : Int
  date : String
  time : String
  participantsNeeded : String
  totalParticipants : String
  rookieAvailable : Bool
  content : String
deriving Repr, DecidableEq

/-- The `PartyRequest` body POSTed to `/api/v1/parties`; `scheduledAt` holds
the parsed timestamp, and the participant counts keep their parse results
(the source never re-checks them for `NaN`). -/
structure PartyRequest where
  themeId : Int
  title : String
  content : String
  scheduledAt : Int
  participantsNeeded : Option Int
  totalParticipants : Option Int
  rookieAvailable : Bool
deriving Repr, DecidableEq

/-- Outcome of a form submission: a locally rejected submission with its
error message, or an issued POST with its body. -/
inductive SubmitOutcome where
  | invalid (msg : String)
  | posted (r : PartyRequest)
deriving Repr, DecidableEq

/-- Whether the submission issued the POST. -/
def SubmitOutcome.isPosted : SubmitOutcome → Bool
  | .posted _ => true
  | .invalid _ => false

/-- The local error message set by a rejected submission. -/
def SubmitOutcome.errorMsg : SubmitOutcome → Option String
  | .invalid m => some m
  | .posted _ => none

/-- The validation and request construction of `handleSubmit` (lines
94-150). `new Date` on the joined `date`/`time` string is modelled by the
ambient parser `parseDate` returning the timestamp, `none` for an invalid
date; `now` is the current timestamp. The checks, in source order:
`!themeId || themeId <= 0`; `participantsNeeded > totalParticipants` on the
`parseInt` results (false when either is `NaN`); `isNaN(scheduledDateTime)`;
`scheduledDateTime <= now`. Only when all pass is the POST issued. -/
def handleSubmit (parseDate : String → Option Int) (now : Int)
    (f : PartyFormData) : SubmitOutcome :=
  if f.themeId ≤ 0 then .invalid "테마를 선택해주세요."
  else
    let participantsNeeded := parseIntJS f.participantsNeeded
    let totalParticipants := parseIntJS f.totalParticipants
    if jsGtOpt participantsNeeded totalParticipants then
      .invalid "필요한 인원은 총 인원보다 작거나 같아야 합니다."
    else
      match parseDate (f.date ++ "T" ++ f.time) with
      | none => .invalid "날짜와 시간을 올바르게 입력해주세요."
      | some t =>
          if t ≤ now then
            .invalid "모임 날짜와 시간은 현재 또는 미래의 시간이어야 합니다."
          else
            .posted
              { themeId := f.themeId
                title := f.title
                content := f.content
                scheduledAt := t
                participantsNeeded := participantsNeeded
                totalParticipants := totalParticipants
                rookieAvailable := f.rookieAvailable }

end PartyCreate

namespace PartiesBrowse

/-- The display record the parties page renders (`EscapeRoom`). -/
structure EscapeRoom where
  id : Option String
  title : String
  category : String
  date : String
  location : String
  participants : String
  image : String
deriving Repr, DecidableEq

/-- The body of the POST to `/api/v1/parties/search`. -/
structure PartySearchRequest where
  keyword : String
  region : String
deriving Repr, DecidableEq

/-- The component state of the parties page (second component of
src/src/app/parties/create/page.tsx's file pair). -/
structure PartiesState where
  parties : List EscapeRoom
  page : Nat
  loading : Bool
  hasMore : Bool
  searchKeyword : String
  filterRegion : String
deriving Repr, DecidableEq

/-- The synchronous entry of `loadParties` (lines 618-630): return with no
request if `loading` — and only if `loading`; the `hasMore` flag is not
consulted — otherwise set `loading` and issue the search POST. The
asynchronous response continuation is not needed by any claim and is not
modelled. -/
def loadParties (s : PartiesState) : PartiesState × Option PartySearchRequest :=
  if s.loading then (s, none)
  else ({ s with loading := true },
        some { keyword := s.searchKeyword, region := s.filterRegion })

/-- `loadMoreParties` (lines 691-694): the scroll-triggered next-page loader
issues no request at all; it only clears `hasMore`. -/
def loadMoreParties (s : PartiesState) :
    PartiesState × Option PartySearchRequest :=
  ({ s with hasMore := false }, none)

end PartiesBrowse

namespace Samples

/-- A concrete backend diary record with identifier 1. -/
def dupApi : DiaryBrowse.DiaryApiResponse :=
  { id := 1
    title := "중복"
    playDate := "2025-05-01"
    isSuccess := true
    themeName := "테마"
    storeName := "매장"
    participants := none
    content := none }

/-- A concrete backend diary record with the given identifier. -/
def mkApi (n : Int) : DiaryBrowse.DiaryApiResponse :=
  { id := n
    title := "t"
    playDate := "2025-05-01"
    isSuccess := true
    themeName := "th"
    storeName := "st"
    participants := some ["a"]
    content := some "c" }

/-- A full first page: 12 records with identifiers 0..11. -/
def page1 : List DiaryBrowse.DiaryApiResponse :=
  (List.range 12).map (fun n => mkApi (n : Int))

/-- A final partial page: 5 records with identifiers 12..16. -/
def page2 : List DiaryBrowse.DiaryApiResponse :=
  (List.range 5).map (fun n => mkApi (12 + (n : Int)))

/-- A parties-page state that is exhausted but not loading. -/
def partiesExhausted : PartiesBrowse.PartiesState :=
  { parties := []
    page := 1
    loading := false
    hasMore := false
    searchKeyword := ""
    filterRegion := "" }

/-- An idle parties-page state. -/
def partiesIdle : PartiesBrowse.PartiesState :=
  { parties := []
    page := 1
    loading := false
    hasMore := true
    searchKeyword := "방"
    filterRegion := "서울" }

/-- A diary-page state with a fetch in flight. -/
def loadingDiaryState : DiaryBrowse.DiaryPageState :=
  { DiaryBrowse.initialState with loading := true }

/-- An idle diary-page state already holding the record with identifier 1. -/
def loadedOneDiaryState : DiaryBrowse.DiaryPageState :=
  { DiaryBrowse.initialState with
      page := 1
      diaries := [DiaryBrowse.convertApiToDiary dupApi] }

/-- A populated, exhausted diary-page state with active filters. -/
def loadedDiaryState : DiaryBrowse.DiaryPageState :=
  { searchKeyword := "공포"
    activeFilters :=
      { success := some true, dateRange := some ("2025-01-01", "2025-03-01") }
    page := 2
    loading := false
    hasMore := false
    diaries := [DiaryBrowse.convertApiToDiary dupApi] }

/-- A concrete personal-page diary record with identifier 1. -/
def dA : MyDiaryPage.Diary :=
  { id := 1
    themeId := 10
    themeName := "밀실"
    storeName := "강남점"
    escapeDate := "2025-01-01"
    escapeResult := true
    ratingAvg := 4 }

/-- A concrete personal-page diary record with identifier 2. -/
def dB : MyDiaryPage.Diary :=
  { id := 2
    themeId := 11
    themeName := "탈출"
    storeName := "홍대점"
    escapeDate := "2025-02-01"
    escapeResult := false
    ratingAvg := 5 / 2 }

/-- A concrete, fully valid party-creation form. -/
def sampleForm : PartyCreate.PartyFormData :=
  { title := "모임"
    themeName := "테마"
    themeId := 3
    date := "2025-05-02"
    time := "12:00"
    participantsNeeded := "2"
    totalParticipants := "4"
    rookieAvailable := false
    content := "소개" }

end Samples

/-- Counting `true` in a list of decided propositions is the length of the
corresponding filtered list. -/
theorem count_true_map_decide (l : List ℕ) (p : ℕ → Prop) [DecidablePred p] :
    (l.map (fun i => decide (p i))).count true =
      (l.filter (fun i => decide (p i))).length := by
  induction l with
  | nil => rfl
  | cons a l ih => by_cases h : p a <;> simp [List.count_cons, h, ih]

/-- Among `0, …, n-1` there are exactly `min n (max 0 r)` naturals below the
integer `r`. -/
theorem length_filter_range_lt (n : ℕ) (r : ℤ) :
    ((List.range n).filter (fun (i : ℕ) => decide ((i : ℤ) < r))).length =
      (min (n : ℤ) (max 0 r)).toNat := by
  induction n with
  | zero => simp
  | succ n ih =>
      rw [List.range_succ, List.filter_append, List.length_append, ih]
      by_cases h : ((n : ℤ) < r) <;> simp [h] <;> omega

/-- C3: a transport or server error during a page fetch sets the session to
Exhausted (`hasMore := false`), clears the loading flag, and leaves the
accumulated diaries untouched. -/
theorem error_path_preserves_diaries (s : DiaryBrowse.DiaryPageState)
    (h1 : s.loading = false) (h2 : s.hasMore = true) :
    (DiaryBrowse.loadMoreDiaries s .failure).1 =
      { s with hasMore := false, loading := false } ∧
    (DiaryBrowse.loadMoreDiaries s .failure).1.diaries = s.diaries := by
  simp [DiaryBrowse.loadMoreDiaries, DiaryBrowse.callLoadMoreDiaries,
    DiaryBrowse.handleDiariesResponse, h1, h2]

/-- Witness for C3 at the initial state. -/
theorem error_path_preserves_diaries_witness :
    (DiaryBrowse.loadMoreDiaries DiaryBrowse.initialState .failure).1 =
      { DiaryBrowse.initialState with hasMore := false, loading := false } ∧
    (DiaryBrowse.loadMoreDiaries DiaryBrowse.initialState .failure).1.diaries =
      DiaryBrowse.initialState.diaries :=
  error_path_preserves_diaries DiaryBrowse.initialState rfl rfl

/-- C2 counterexample: `loadParties` called while the session is Exhausted
(`hasMore = false`) and no fetch is in flight is not a no-op — it issues a
search request, because its guard only checks `loading`. -/
theorem loadParties_exhausted_fetches_counterexample :
    Samples.partiesExhausted.loading = false ∧
    Samples.partiesExhausted.hasMore = false ∧
    (PartiesBrowse.loadParties Samples.partiesExhausted).2 ≠ none := by
  refine ⟨rfl, rfl, ?_⟩
  simp [PartiesBrowse.loadParties, Samples.partiesExhausted]

/-- C2 (amended): `loadMoreDiaries` is a no-op issuing no request while
Loading or Exhausted, and two immediate successive calls issue exactly one
request; `loadParties` is a no-op while Loading (though not while
Exhausted) and also never double-fetches; `loadMoreParties` never issues a
request. Hence at most one fetch is in flight per session. -/
theorem single_flight_guard (s : DiaryBrowse.DiaryPageState)
    (p : PartiesBrowse.PartiesState) :
    (s.loading = true ∨ s.hasMore = false →
      DiaryBrowse.callLoadMoreDiaries s = (s, none)) ∧
    (s.loading = false → s.hasMore = true →
      (DiaryBrowse.callLoadMoreDiaries s).2.isSome = true ∧
      (DiaryBrowse.callLoadMoreDiaries
        (DiaryBrowse.callLoadMoreDiaries s).1).2 = none) ∧
    (p.loading = true → PartiesBrowse.loadParties p = (p, none)) ∧
    (p.loading = false →
      (PartiesBrowse.loadParties p).2.isSome = true ∧
      (PartiesBrowse.loadParties (PartiesBrowse.loadParties p).1).2 = none) ∧
    (PartiesBrowse.loadMoreParties p).2 = none := by
  refine ⟨?_, ?_, ?_, ?_, rfl⟩
  · rintro (h | h) <;>
      simp [DiaryBrowse.callLoadMoreDiaries, h]
  · intro h1 h2
    simp [DiaryBrowse.callLoadMoreDiaries, h1, h2]
  · intro h
    simp [PartiesBrowse.loadParties, h]
  · intro h
    simp [PartiesBrowse.loadParties, h]

/-- Witness for C2 at concrete states: a loading diary session ignores the
call, an idle one issues a request that a second immediate call does not
duplicate, and the same for the parties page. -/
theorem single_flight_guard_witness :
    DiaryBrowse.callLoadMoreDiaries Samples.loadingDiaryState =
      (Samples.loadingDiaryState, none) ∧
    (DiaryBrowse.callLoadMoreDiaries DiaryBrowse.initialState).2.isSome = true ∧
    (DiaryBrowse.callLoadMoreDiaries
      (DiaryBrowse.callLoadMoreDiaries DiaryBrowse.initialState).1).2 = none ∧
    (PartiesBrowse.loadParties Samples.partiesIdle).2.isSome = true ∧
    (PartiesBrowse.loadParties
      (PartiesBrowse.loadParties Samples.partiesIdle).1).2 = none ∧
    (PartiesBrowse.loadMoreParties Samples.partiesIdle).2 = none := by
  have h1 := (single_flight_guard Samples.loadingDiaryState Samples.partiesIdle).1
    (Or.inl rfl)
  have h2 := (single_flight_guard DiaryBrowse.initialState Samples.partiesIdle).2.1
    rfl rfl
  have h3 := (single_flight_guard DiaryBrowse.initialState Samples.partiesIdle).2.2.2.1
    rfl
  have h4 := (single_flight_guard DiaryBrowse.initialState Samples.partiesIdle).2.2.2.2
  exact ⟨h1, h2.1, h2.2, h3.1, h3.2, h4⟩

/-- C5: every filter change on the diary page — keyword search, filter
apply, single-filter removal, full reset — clears the accumulated diaries,
resets the page cursor to 0 and the exhaustion flag to `hasMore = true`;
and the reload that follows (when no fetch is in flight) issues its request
from that reset state: page 0 and the new keyword/filters. -/
theorem filter_change_resets_session (s : DiaryBrowse.DiaryPageState)
    (k : String) (f : DiaryBrowse.FilterValues) (t : DiaryBrowse.FilterType)
    (hl : s.loading = false) :
    ((DiaryBrowse.handleSearch s k).page = 0 ∧
      (DiaryBrowse.handleSearch s k).diaries = [] ∧
      (DiaryBrowse.handleSearch s k).hasMore = true ∧
      (DiaryBrowse.handleSearch s k).searchKeyword = k) ∧
    ((DiaryBrowse.handleFilterApply s f).page = 0 ∧
      (DiaryBrowse.handleFilterApply s f).diaries = [] ∧
      (DiaryBrowse.handleFilterApply s f).hasMore = true ∧
      (DiaryBrowse.handleFilterApply s f).activeFilters = f) ∧
    ((DiaryBrowse.resetAllFilters s).page = 0 ∧
      (DiaryBrowse.resetAllFilters s).diaries = [] ∧
      (DiaryBrowse.resetAllFilters s).hasMore = true) ∧
    ((DiaryBrowse.removeFilter s t).page = 0 ∧
      (DiaryBrowse.removeFilter s t).diaries = [] ∧
      (DiaryBrowse.removeFilter s t).hasMore = true) ∧
    ((DiaryBrowse.callLoadMoreDiaries (DiaryBrowse.handleSearch s k)).2 =
      some (DiaryBrowse.mkRequestData (DiaryBrowse.handleSearch s k)) ∧
      (DiaryBrowse.mkRequestData (DiaryBrowse.handleSearch s k)).page = 0 ∧
      (DiaryBrowse.mkRequestData (DiaryBrowse.handleSearch s k)).keyword =
        (if k = "" then none else some k)) ∧
    (DiaryBrowse.callLoadMoreDiaries (DiaryBrowse.removeFilter s t)).2 =
      some (DiaryBrowse.mkRequestData (DiaryBrowse.removeFilter s t)) := by
  refine ⟨⟨rfl, rfl, rfl, rfl⟩, ⟨rfl, rfl, rfl, rfl⟩, ⟨rfl, rfl, rfl⟩,
    ⟨?_, ?_, ?_⟩, ⟨?_, rfl, rfl⟩, ?_⟩
  · cases t <;> rfl
  · cases t <;> rfl
  · cases t <;> rfl
  · simp [DiaryBrowse.callLoadMoreDiaries, DiaryBrowse.handleSearch, hl]
  · cases t <;>
      simp [DiaryBrowse.callLoadMoreDiaries, DiaryBrowse.removeFilter, hl]

/-- Witness for C5: a keyword search and a date-filter removal from a
populated, exhausted state reset the session before requesting page 0. -/
theorem filter_change_resets_session_witness :
    (DiaryBrowse.handleSearch Samples.loadedDiaryState "방탈출").page = 0 ∧
    (DiaryBrowse.handleSearch Samples.loadedDiaryState "방탈출").diaries = [] ∧
    (DiaryBrowse.handleSearch Samples.loadedDiaryState "방탈출").hasMore = true ∧
    (DiaryBrowse.mkRequestData
      (DiaryBrowse.handleSearch Samples.loadedDiaryState "방탈출")).page = 0 ∧
    (DiaryBrowse.callLoadMoreDiaries
      (DiaryBrowse.removeFilter Samples.loadedDiaryState .date)).2 =
      some (DiaryBrowse.mkRequestData
        (DiaryBrowse.removeFilter Samples.loadedDiaryState .date)) := by
  have h := filter_change_resets_session Samples.loadedDiaryState "방탈출"
    { success := none, dateRange := none } .date rfl
  exact ⟨h.1.1, h.1.2.1, h.1.2.2.1, h.2.2.2.2.1.2.1, h.2.2.2.2.2⟩

/-- C1 counterexample: two successful page fetches both containing the
record with identifier 1 leave the accumulated list with two items carrying
identifier 1 — `loadMoreDiaries` performs no deduplication. -/
theorem diaries_duplicate_id_counterexample :
    ((DiaryBrowse.runLoads DiaryBrowse.initialState
        [.success (some (.paged [Samples.dupApi] false)),
         .success (some (.paged [Samples.dupApi] false))]).1.diaries.countP
      (fun d => d.id == 1)) = 2 ∧
    ¬ ((DiaryBrowse.runLoads DiaryBrowse.initialState
        [.success (some (.paged [Samples.dupApi] false)),
         .success (some (.paged [Samples.dupApi] false))]).1.diaries.map
      (fun d => d.id)).Nodup := by
  constructor <;> decide

/-- C1 (amended): each successful non-empty page fetch appends the page's
converted items to the accumulated list in order, without any deduplication
by identifier; the identifier sequence of the accumulated list is extended
by exactly the page's identifier sequence, so relative order of appearances
is preserved but a repeated identifier appears repeatedly. -/
theorem loadMoreDiaries_append_no_dedup (s : DiaryBrowse.DiaryPageState)
    (c : List DiaryBrowse.DiaryApiResponse) (last : Bool)
    (h1 : s.loading = false) (h2 : s.hasMore = true) (h3 : c ≠ []) :
    (DiaryBrowse.loadMoreDiaries s
        (.success (some (.paged c last)))).1.diaries =
      s.diaries ++ c.map DiaryBrowse.convertApiToDiary ∧
    ((DiaryBrowse.loadMoreDiaries s
        (.success (some (.paged c last)))).1.diaries.map (fun d => d.id)) =
      s.diaries.map (fun d => d.id) ++ c.map (fun a => a.id) := by
  have hc : c.isEmpty = false := by
    cases c with
    | nil => exact absurd rfl h3
    | cons a l => rfl
  constructor <;>
    simp [DiaryBrowse.loadMoreDiaries, DiaryBrowse.callLoadMoreDiaries,
      DiaryBrowse.handleDiariesResponse, DiaryBrowse.contentField, hc, h1, h2,
      Function.comp, DiaryBrowse.convertApiToDiary]

/-- Witness for the amended C1: appending a one-record page to a state that
already holds that record's identifier duplicates it. -/
theorem loadMoreDiaries_append_no_dedup_witness :
    (DiaryBrowse.loadMoreDiaries Samples.loadedOneDiaryState
        (.success (some (.paged [Samples.dupApi] false)))).1.diaries =
      Samples.loadedOneDiaryState.diaries ++
        [Samples.dupApi].map DiaryBrowse.convertApiToDiary ∧
    ((DiaryBrowse.loadMoreDiaries Samples.loadedOneDiaryState
        (.success (some (.paged [Samples.dupApi] false)))).1.diaries.map
      (fun d => d.id)) = [1, 1] := by
  have h := loadMoreDiaries_append_no_dedup Samples.loadedOneDiaryState
    [Samples.dupApi] false rfl rfl (by decide)
  exact ⟨h.1, by rw [h.2]; decide⟩

/-- C4: a successful page response with an empty item list marks the session
Exhausted, appends nothing and leaves the page cursor unchanged; a non-empty
one appends its converted items, increments the cursor by exactly 1, and
marks the session Exhausted exactly when the response's `last` flag is set. -/
theorem success_page_handling (s : DiaryBrowse.DiaryPageState)
    (c : List DiaryBrowse.DiaryApiResponse) (last : Bool)
    (h1 : s.loading = false) (h2 : s.hasMore = true) :
    (c = [] →
      (DiaryBrowse.loadMoreDiaries s (.success (some (.paged c last)))).1 =
        { s with hasMore := false, loading := false }) ∧
    (c ≠ [] →
      (DiaryBrowse.loadMoreDiaries s (.success (some (.paged c last)))).1 =
        { s with
            diaries := s.diaries ++ c.map DiaryBrowse.convertApiToDiary
            page := s.page + 1
            hasMore := !last
            loading := false }) := by
  constructor
  · rintro rfl
    simp [DiaryBrowse.loadMoreDiaries, DiaryBrowse.callLoadMoreDiaries,
      DiaryBrowse.handleDiariesResponse, DiaryBrowse.contentField, h1, h2]
  · intro h3
    have hc : c.isEmpty = false := by
      cases c with
      | nil => exact absurd rfl h3
      | cons a l => rfl
    simp [DiaryBrowse.loadMoreDiaries, DiaryBrowse.callLoadMoreDiaries,
      DiaryBrowse.handleDiariesResponse, DiaryBrowse.contentField,
      DiaryBrowse.lastField, hc, h1, h2]

/-- Witness for C4 realising the spec's scenario: a 12-item page with
`last:false` then a 5-item page with `last:true` accumulate 17 items,
advance the cursor to 2 and exhaust the session; a third trigger issues no
request, and exactly 2 requests were issued in total. -/
theorem success_page_handling_witness :
    (DiaryBrowse.loadMoreDiaries DiaryBrowse.initialState
        (.success (some (.paged Samples.page1 false)))).1 =
      { DiaryBrowse.initialState with
          diaries := DiaryBrowse.initialState.diaries ++
            Samples.page1.map DiaryBrowse.convertApiToDiary
          page := DiaryBrowse.initialState.page + 1
          hasMore := !false
          loading := false } ∧
    (DiaryBrowse.runLoads DiaryBrowse.initialState
        [.success (some (.paged Samples.page1 false)),
         .success (some (.paged Samples.page2 true))]).1.diaries.length = 17 ∧
    (DiaryBrowse.runLoads DiaryBrowse.initialState
        [.success (some (.paged Samples.page1 false)),
         .success (some (.paged Samples.page2 true))]).1.page = 2 ∧
    (DiaryBrowse.runLoads DiaryBrowse.initialState
        [.success (some (.paged Samples.page1 false)),
         .success (some (.paged Samples.page2 true))]).1.hasMore = false ∧
    (DiaryBrowse.callLoadMoreDiaries
      (DiaryBrowse.runLoads DiaryBrowse.initialState
        [.success (some (.paged Samples.page1 false)),
         .success (some (.paged Samples.page2 true))]).1).2 = none ∧
    (DiaryBrowse.runLoads DiaryBrowse.initialState
        [.success (some (.paged Samples.page1 false)),
         .success (some (.paged Samples.page2 true))]).2 = 2 := by
  refine ⟨(success_page_handling DiaryBrowse.initialState Samples.page1 false
    rfl rfl).2 (by decide), ?_, ?_, ?_, ?_, ?_⟩ <;> decide

/-- C6 counterexample: fed a bare-array `data` holding one record,
`loadMoreDiaries` extracts nothing — it reads `.content`, absent on an
array — and marks the session Exhausted instead of appending the item. -/
theorem loadMoreDiaries_bare_array_counterexample :
    (DiaryBrowse.loadMoreDiaries DiaryBrowse.initialState
        (.success (some (.bare [Samples.dupApi])))).1.diaries = [] ∧
    (DiaryBrowse.loadMoreDiaries DiaryBrowse.initialState
        (.success (some (.bare [Samples.dupApi])))).1.hasMore = false ∧
    [Samples.dupApi] ≠ [] := by
  refine ⟨?_, ?_, by decide⟩ <;> decide

/-- C6 (amended): `fetchDiaries` extracts the items from both response
shapes (bare array and page object) and yields the empty list when `data`
is absent; `loadMoreDiaries` extracts only the page-object shape, treating
a bare array — like an absent or malformed `data` — as an exhausted page:
it sets `hasMore := false` without throwing and appends nothing, leaving
the accumulated list as it was (empty on the first page). -/
theorem response_shape_handling (items c : List MyDiaryPage.Diary) (b : Bool)
    (s : DiaryBrowse.DiaryPageState)
    (items2 : List DiaryBrowse.DiaryApiResponse)
    (h1 : s.loading = false) (h2 : s.hasMore = true) :
    MyDiaryPage.fetchDiariesExtract (some (.bare items)) = items ∧
    MyDiaryPage.fetchDiariesExtract (some (.paged c b)) = c ∧
    MyDiaryPage.fetchDiariesExtract none = [] ∧
    (DiaryBrowse.loadMoreDiaries s (.success (some (.bare items2)))).1 =
      { s with hasMore := false, loading := false } ∧
    (DiaryBrowse.loadMoreDiaries s (.success none)).1 =
      { s with hasMore := false, loading := false } := by
  refine ⟨rfl, rfl, rfl, ?_, ?_⟩ <;>
    simp [DiaryBrowse.loadMoreDiaries, DiaryBrowse.callLoadMoreDiaries,
      DiaryBrowse.handleDiariesResponse, DiaryBrowse.contentField, h1, h2]

/-- Witness for the amended C6 at concrete inputs. -/
theorem response_shape_handling_witness :
    MyDiaryPage.fetchDiariesExtract (some (.bare [Samples.dA])) =
      [Samples.dA] ∧
    MyDiaryPage.fetchDiariesExtract (some (.paged [Samples.dB] true)) =
      [Samples.dB] ∧
    MyDiaryPage.fetchDiariesExtract none = [] ∧
    (DiaryBrowse.loadMoreDiaries DiaryBrowse.initialState
        (.success (some (.bare [Samples.dupApi])))).1 =
      { DiaryBrowse.initialState with hasMore := false, loading := false } ∧
    (DiaryBrowse.loadMoreDiaries DiaryBrowse.initialState
        (.success none)).1 =
      { DiaryBrowse.initialState with hasMore := false, loading := false } :=
  response_shape_handling [Samples.dA] [Samples.dB] true
    DiaryBrowse.initialState [Samples.dupApi] rfl rfl

/-- C7: a confirmed successful delete removes exactly the diaries carrying
the given identifier — the result is a sublist of the original (relative
order of the survivors unchanged), contains no diary with that identifier,
and keeps every diary with a different identifier with its multiplicity;
deleting an identifier not present leaves the list unchanged; and a failed
delete leaves the list unchanged. -/
theorem handleDeleteDiary_spec (ds : List MyDiaryPage.Diary) (i : Int) :
    (MyDiaryPage.handleDeleteDiary ds i true .success).Sublist ds ∧
    (∀ d ∈ MyDiaryPage.handleDeleteDiary ds i true .success, d.id ≠ i) ∧
    (∀ d : MyDiaryPage.Diary, d.id ≠ i →
      (MyDiaryPage.handleDeleteDiary ds i true .success).count d =
        ds.count d) ∧
    ((∀ d ∈ ds, d.id ≠ i) →
      MyDiaryPage.handleDeleteDiary ds i true .success = ds) ∧
    MyDiaryPage.handleDeleteDiary ds i true .failure = ds := by
  refine ⟨?_, ?_, ?_, ?_, rfl⟩
  · exact List.filter_sublist ds
  · intro d hd
    have := (List.mem_filter.mp hd).2
    simpa [bne_iff_ne] using this
  · intro d hd
    exact List.count_filter (by simpa [bne_iff_ne] using hd)
  · intro h
    exact List.filter_eq_self.mpr (fun d hd => by simpa [bne_iff_ne] using h d hd)

/-- Witness for C7: deleting identifier 1 from `[dA, dB]` keeps exactly
`dB`; deleting the absent identifier 3 is a no-op; a failed delete of 1
changes nothing. -/
theorem handleDeleteDiary_spec_witness :
    (MyDiaryPage.handleDeleteDiary [Samples.dA, Samples.dB] 1 true
      .success).Sublist [Samples.dA, Samples.dB] ∧
    (MyDiaryPage.handleDeleteDiary [Samples.dA, Samples.dB] 1 true .success).count
      Samples.dB = ([Samples.dA, Samples.dB] : List MyDiaryPage.Diary).count
        Samples.dB ∧
    MyDiaryPage.handleDeleteDiary [Samples.dA, Samples.dB] 3 true .success =
      [Samples.dA, Samples.dB] ∧
    MyDiaryPage.handleDeleteDiary [Samples.dA, Samples.dB] 1 true .failure =
      [Samples.dA, Samples.dB] := by
  have h := handleDeleteDiary_spec [Samples.dA, Samples.dB] 1
  have h3 := handleDeleteDiary_spec [Samples.dA, Samples.dB] 3
  exact ⟨h.1, h.2.2.1 Samples.dB (by decide), h3.2.2.2.1 (by decide), h.2.2.2.2⟩

/-- C8: the party-creation submission issues the POST exactly when the theme
identifier is strictly positive, the parsed needed-participants count does
not exceed the parsed total (a comparison that is false when either parse is
`NaN`), the joined date/time parses, and the parsed moment is strictly after
`now`; whenever any check fails, no request is issued and a local error
message is set (the form itself is never modified by submission). -/
theorem handleSubmit_validation_gate (parseDate : String → Option Int)
    (now : Int) (f : PartyCreate.PartyFormData) :
    ((PartyCreate.handleSubmit parseDate now f).isPosted = true ↔
      (0 < f.themeId ∧
        PartyCreate.jsGtOpt (PartyCreate.parseIntJS f.participantsNeeded)
          (PartyCreate.parseIntJS f.totalParticipants) = false ∧
        ∃ t, parseDate (f.date ++ "T" ++ f.time) = some t ∧ now < t)) ∧
    ((PartyCreate.handleSubmit parseDate now f).isPosted = false →
      ((PartyCreate.handleSubmit parseDate now f).errorMsg).isSome = true) := by
  unfold PartyCreate.handleSubmit
  by_cases h1 : f.themeId ≤ 0
  · simp [h1, PartyCreate.SubmitOutcome.isPosted,
      PartyCreate.SubmitOutcome.errorMsg]
  · simp only [h1, if_false]
    by_cases h2 : PartyCreate.jsGtOpt (PartyCreate.parseIntJS f.participantsNeeded)
        (PartyCreate.parseIntJS f.totalParticipants) = true
    · simp [h2, PartyCreate.SubmitOutcome.isPosted,
        PartyCreate.SubmitOutcome.errorMsg]
    · rcases hp : parseDate (f.date ++ "T" ++ f.time) with _ | t
      · simp [h2, hp, PartyCreate.SubmitOutcome.isPosted,
          PartyCreate.SubmitOutcome.errorMsg]
      · by_cases h4 : t ≤ now
        · simp [h2, hp, h4, PartyCreate.SubmitOutcome.isPosted,
            PartyCreate.SubmitOutcome.errorMsg]
        · simp [h2, hp, h4, PartyCreate.SubmitOutcome.isPosted,
            PartyCreate.SubmitOutcome.errorMsg]
          all_goals omega

/-- Witness for C8: the sample form POSTs under a parser that accepts its
date at timestamp 100 with `now = 0`; and with an unparseable date it is
rejected with an error message and no request. -/
theorem handleSubmit_validation_gate_witness :
    (PartyCreate.handleSubmit (fun _ => some 100) 0
      Samples.sampleForm).isPosted = true ∧
    (PartyCreate.handleSubmit (fun _ => none) 0
      Samples.sampleForm).isPosted = false ∧
    ((PartyCreate.handleSubmit (fun _ => none) 0
      Samples.sampleForm).errorMsg).isSome = true := by
  refine ⟨(handleSubmit_validation_gate (fun _ => some 100) 0
      Samples.sampleForm).1.mpr ⟨by decide, by decide, 100, rfl, by decide⟩,
    ?_, ?_⟩
  · decide
  · exact (handleSubmit_validation_gate (fun _ => none) 0
      Samples.sampleForm).2 (by decide)

/-- C9: the star renderer always produces exactly 5 glyphs; the model of
`Math.round` agrees with mathematical rounding (half away from the floor);
and the number of filled glyphs is the rounded rating clamped to `[0, 5]` —
in particular 0 for negative ratings and 5 for ratings above 5. -/
theorem renderStars_clamped_round (q : ℚ) :
    (MyDiaryPage.renderStars q).length = 5 ∧
    MyDiaryPage.jsRound q = round q ∧
    (MyDiaryPage.renderStars q).count true =
      (min 5 (max 0 (MyDiaryPage.jsRound q))).toNat ∧
    (q < 0 → (MyDiaryPage.renderStars q).count true = 0) ∧
    (5 < q → (MyDiaryPage.renderStars q).count true = 5) := by
  have hcount : (MyDiaryPage.renderStars q).count true =
      (min 5 (max 0 (MyDiaryPage.jsRound q))).toNat := by
    unfold MyDiaryPage.renderStars
    rw [count_true_map_decide (List.range 5) (fun i => (i : ℤ) < MyDiaryPage.jsRound q),
      length_filter_range_lt 5 (MyDiaryPage.jsRound q)]
    norm_num
  refine ⟨by simp [MyDiaryPage.renderStars], (round_eq q).symm, hcount, ?_, ?_⟩
  · intro hq
    rw [hcount]
    have : MyDiaryPage.jsRound q < 1 := by
      rw [MyDiaryPage.jsRound, Int.floor_lt]
      push_cast
      linarith
    omega
  · intro hq
    rw [hcount]
    have : (5 : ℤ) ≤ MyDiaryPage.jsRound q := by
      rw [MyDiaryPage.jsRound, Int.le_floor]
      push_cast
      linarith
    omega

/-- Witness for C9 at rating 7/2 (rounds to 4), -1 (clamps to 0) and 6
(clamps to 5). -/
theorem renderStars_clamped_round_witness :
    (MyDiaryPage.renderStars (7 / 2)).count true = 4 ∧
    (MyDiaryPage.renderStars (-1)).count true = 0 ∧
    (MyDiaryPage.renderStars 6).count true = 5 := by
  refine ⟨?_, (renderStars_clamped_round (-1)).2.2.2.1 (by norm_num),
    (renderStars_clamped_round 6).2.2.2.2 (by norm_num)⟩
  rw [(renderStars_clamped_round (7 / 2)).2.2.1]
  have h4 : MyDiaryPage.jsRound (7 / 2) = 4 := by
    rw [MyDiaryPage.jsRound]
    norm_num
  rw [h4]
  norm_num
  all_goals rfl
